import Mathlib

/-!
# Café Delights backend — shallow embedding

A shallow embedding of `backend/server.py`: the data model (pydantic models),
the credential hasher, the token service, and the request handlers that the
verified claims are about.  Python floats carrying money amounts are modelled
as `ℚ` (every value handled by the claims is a small dyadic rational, on which
binary floating point is exact) and POSIX timestamps as `ℤ` (whole seconds —
the claims only add whole-second durations and compare); MongoDB collections
are lists of documents, `find_one` is first-match lookup, `insert_one` appends,
and `update_one` rewrites the first match.
-/

deriving instance DecidableEq for Except

namespace CafeDelights

/-- `ProductCategory` enum of `server.py`. -/
inductive ProductCategory
  | coffee | tea | pastry | sandwich | cake | cookie | beverage
  deriving DecidableEq, Repr, BEq

/-- `OrderStatus` enum of `server.py`. -/
inductive OrderStatus
  | pending | confirmed | preparing | ready | completed | cancelled
  deriving DecidableEq, Repr, BEq

/-- `UserRole` enum of `server.py`. -/
inductive UserRole
  | customer | admin
  deriving DecidableEq, Repr, BEq

/-- `Product` pydantic model: a catalog document as stored in `db.products`. -/
structure Product where
  id : String
  name : String
  description : String
  price : ℚ
  category : ProductCategory
  image_url : String
  available : Bool
  ingredients : List String
  nutritional_info : List (String × ℚ)
  created_at : ℤ
  deriving DecidableEq, Repr, BEq

/-- `ProductCreate` request model. -/
structure ProductCreate where
  name : String
  description : String
  price : ℚ
  category : ProductCategory
  image_url : String
  ingredients : List String
  nutritional_info : List (String × ℚ)
  deriving DecidableEq, Repr, BEq

/-- The `User` pydantic model of `server.py`.  Note that it has NO password
field: `User(**d).dict()` keeps exactly these fields and silently drops any
extra key of `d` (pydantic ignores unknown keys). -/
structure User where
  id : String
  email : String
  name : String
  role : UserRole
  phone : Option String
  address : Option String
  created_at : ℤ
  deriving DecidableEq, Repr, BEq

/-- A document of the schemaless `db.users` collection.  The seed admin
document carries a `password` key; a document produced by `User.dict()` does
not, which we model with an `Option`. -/
structure UserDoc where
  id : String
  email : String
  name : String
  role : UserRole
  phone : Option String
  address : Option String
  created_at : ℤ
  password : Option String
  deriving DecidableEq, Repr, BEq

/-- `User(**doc)` on a stored user document: the model fields are read, the
`password` key (when present) is ignored. -/
def UserDoc.toUser (d : UserDoc) : User :=
  { id := d.id, email := d.email, name := d.name, role := d.role,
    phone := d.phone, address := d.address, created_at := d.created_at }

/-- `UserCreate` request model (registration payload). -/
structure UserCreate where
  email : String
  name : String
  password : String
  phone : Option String
  address : Option String
  deriving DecidableEq, Repr, BEq

/-- `OrderItem` model: one line item of an order. -/
structure OrderItem where
  product_id : String
  quantity : ℤ
  price : ℚ
  product_name : String
  deriving DecidableEq, Repr, BEq

/-- `Order` pydantic model: an order document as stored in `db.orders`. -/
structure Order where
  id : String
  user_id : String
  items : List OrderItem
  total_amount : ℚ
  status : OrderStatus
  payment_method : String
  delivery_address : Option String
  special_instructions : Option String
  created_at : ℤ
  updated_at : ℤ
  deriving DecidableEq, Repr, BEq

/-- `OrderCreate` request model.  It has no total-amount field: the client
cannot supply a total. -/
structure OrderCreate where
  items : List OrderItem
  delivery_address : Option String
  special_instructions : Option String
  deriving DecidableEq, Repr, BEq

/-- `Review` pydantic model: a review document as stored in `db.reviews`. -/
structure Review where
  id : String
  product_id : String
  user_id : String
  user_name : String
  rating : ℤ
  comment : String
  created_at : ℤ
  deriving DecidableEq, Repr, BEq

/-- `ReviewCreate` request model.  Its `rating` field is declared
`Field(..., ge=1, le=5)`: pydantic rejects a request whose rating lies outside
`[1,5]` before the handler body runs. -/
structure ReviewCreate where
  product_id : String
  rating : ℤ
  comment : String
  deriving DecidableEq, Repr, BEq

/-- Whether a `ReviewCreate` payload passes pydantic validation
(`ge=1, le=5` on `rating`). -/
def ReviewCreate.valid (rc : ReviewCreate) : Bool :=
  1 ≤ rc.rating && rc.rating ≤ 5

/-- The whole database: the four Mongo collections of `server.py`. -/
structure DB where
  users : List UserDoc
  products : List Product
  orders : List Order
  reviews : List Review
  deriving DecidableEq, Repr, BEq

/-- Abstract failure kinds surfaced by the handlers (the HTTP codes of
`server.py` mapped to the spec's failure vocabulary): 404 → `notFound`,
400 "Email already registered" → `duplicateKey`, 401 → `unauthenticated`,
403 → `forbidden`, 422 pydantic validation → `invalidInput`.  `serverError`
models an uncaught Python exception (HTTP 500). -/
inductive Err
  | notFound | duplicateKey | unauthenticated | forbidden | invalidInput
  | serverError
  deriving DecidableEq, Repr, BEq

/-- `hashlib.sha256(password.encode()).hexdigest()` is a third-party
primitive; we model it by a concrete deterministic injective encoding of the
input, which is faithful for every use the handlers make of it (the digest is
only ever stored and compared for equality, never inverted or truncated). -/
def hash_password (password : String) : String :=
  String.intercalate "." (password.toList.map (fun c => toString c.toNat))

/-- The hard-coded process-wide signing secret `SECRET_KEY`. -/
def SECRET_KEY : String := "your-secret-key-change-in-production"

/-- The payload dict passed to `jwt.encode` by `create_token`. -/
structure TokenPayload where
  user_id : String
  email : String
  role : UserRole
  exp : ℤ
  deriving DecidableEq, Repr, BEq

/-- A JWT as produced by `jwt.encode(payload, key, "HS256")`: a self-contained
signed credential, modelled as the payload together with the key that signed
it (the signature validates exactly when the verifying key equals the signing
key). -/
structure Jwt where
  payload : TokenPayload
  key : String
  deriving DecidableEq, Repr, BEq

/-- Errors raised by `jwt.decode`: `ExpiredSignatureError` and
`InvalidTokenError`. -/
inductive TokenErr
  | expired | invalid
  deriving DecidableEq, Repr, BEq

/-- `create_token(user_id, email, role)` at current time `now` (seconds):
payload expiry is `now + 86400` (24 hours), signed with `SECRET_KEY`. -/
def create_token (user_id email : String) (role : UserRole) (now : ℤ) : Jwt :=
  { payload := { user_id := user_id, email := email, role := role,
                 exp := now + 86400 },
    key := SECRET_KEY }

/-- `jwt.decode(token, key, ["HS256"])` at current time `now`: fails with
`InvalidTokenError` when the signature does not validate, with
`ExpiredSignatureError` when the embedded expiry is not in the future
(PyJWT raises when `exp <= now`, zero leeway), and otherwise returns the
payload. -/
def jwt_decode (tok : Jwt) (key : String) (now : ℤ) :
    Except TokenErr TokenPayload :=
  if tok.key ≠ key then .error .invalid
  else if tok.payload.exp ≤ now then .error .expired
  else .ok tok.payload

/-- Mongo `update_one`: rewrite the first document satisfying the filter,
leave the rest untouched. -/
def updateFirst (p : α → Bool) (g : α → α) : List α → List α
  | [] => []
  | x :: xs => if p x then g x :: xs else x :: updateFirst p g xs

/-! ## Request handlers

Each mutating handler returns the response (`Except Err …`) together with the
resulting database, so that "no state change" is a provable statement.
Handlers behind `Depends(get_current_user)` take the already-authenticated
`User` as an argument, as the handler body does.  Fresh UUIDs and the current
time are explicit arguments (`newId`, `now`). -/

/-- `GET /api/products`: list documents matching
`{"available": True}` (plus the category when given). -/
def get_products (db : DB) (category : Option ProductCategory) :
    List Product :=
  db.products.filter (fun p =>
    p.available && (match category with
      | none => true
      | some c => p.category == c))

/-- `GET /api/products/{product_id}`: `find_one({"id": product_id})`,
404 when absent. -/
def get_product (db : DB) (product_id : String) : Except Err Product :=
  match db.products.find? (fun p => p.id == product_id) with
  | none => .error .notFound
  | some p => .ok p

/-- `POST /api/products`: admin-only (403 unless the authenticated user's
role is admin); inserts `Product(**product.dict())` with `available`
defaulting to `True` and fresh id/timestamp. -/
def create_product (db : DB) (current_user : User) (pc : ProductCreate)
    (newId : String) (now : ℤ) : Except Err Product × DB :=
  if current_user.role ≠ UserRole.admin then (.error .forbidden, db)
  else
    let product_obj : Product :=
      { id := newId, name := pc.name, description := pc.description,
        price := pc.price, category := pc.category, image_url := pc.image_url,
        available := true, ingredients := pc.ingredients,
        nutritional_info := pc.nutritional_info, created_at := now }
    (.ok product_obj, { db with products := db.products ++ [product_obj] })

/-- `POST /api/register`: rejects an already-registered email
(`find_one({"email": …})`); otherwise builds `user_dict` from the request,
overwrites its `password` entry with the digest, and inserts
`User(**user_dict).dict()`.  The `User` model has no `password` field, so the
digest is dropped by pydantic and the inserted document carries no password —
modelled by `password := none`.  Returns a token and the user object. -/
def register (db : DB) (user : UserCreate) (newId : String) (now : ℤ) :
    Except Err (Jwt × User) × DB :=
  match db.users.find? (fun u => u.email == user.email) with
  | some _ => (.error .duplicateKey, db)
  | none =>
    let user_obj : UserDoc :=
      { id := newId, email := user.email, name := user.name,
        role := UserRole.customer, phone := user.phone,
        address := user.address, created_at := now,
        password := none }
    let token := create_token user_obj.id user_obj.email user_obj.role now
    (.ok (token, user_obj.toUser), { db with users := db.users ++ [user_obj] })

/-- `POST /api/login`: `find_one({"email": …})`; 401 when no user or the
stored digest differs from `hash_password(credentials.password)`.  When the
stored document has no `password` key, `user["password"]` raises `KeyError`
(an uncaught exception, HTTP 500), modelled as `serverError`. -/
def login (db : DB) (email password : String) (now : ℤ) :
    Except Err (Jwt × User) :=
  match db.users.find? (fun u => u.email == email) with
  | none => .error .unauthenticated
  | some u =>
    match u.password with
    | none => .error .serverError
    | some digest =>
      if digest ≠ hash_password password then .error .unauthenticated
      else .ok (create_token u.id u.email u.role now, u.toUser)

/-- `POST /api/orders`: any authenticated user; the total is
`sum(item.price * item.quantity for item in order.items)`, computed
server-side (the request model has no total field); status defaults to
`pending`. -/
def create_order (db : DB) (current_user : User) (order : OrderCreate)
    (newId : String) (now : ℤ) : Order × DB :=
  let total_amount : ℚ :=
    (order.items.map (fun item => item.price * (item.quantity : ℚ))).sum
  let order_obj : Order :=
    { id := newId, user_id := current_user.id, items := order.items,
      total_amount := total_amount, status := OrderStatus.pending,
      payment_method := "card", delivery_address := order.delivery_address,
      special_instructions := order.special_instructions,
      created_at := now, updated_at := now }
  (order_obj, { db with orders := db.orders ++ [order_obj] })

/-- `GET /api/orders/{order_id}`: 404 when absent; 403 when the
authenticated user has role customer and does not own the order. -/
def get_order (db : DB) (current_user : User) (order_id : String) :
    Except Err Order :=
  match db.orders.find? (fun o => o.id == order_id) with
  | none => .error .notFound
  | some o =>
    if current_user.role == UserRole.customer && o.user_id ≠ current_user.id
    then .error .forbidden
    else .ok o

/-- `PUT /api/orders/{order_id}/status`: admin-only;
`update_one({"id": order_id}, {"$set": {"status": …, "updated_at": now}})`,
404 when no document matched.  No check relates the old and new status. -/
def update_order_status (db : DB) (current_user : User) (order_id : String)
    (status : OrderStatus) (now : ℤ) : Except Err Unit × DB :=
  if current_user.role ≠ UserRole.admin then (.error .forbidden, db)
  else if db.orders.all (fun o => o.id != order_id) then (.error .notFound, db)
  else
    let orders :=
      updateFirst (fun o => o.id == order_id)
        (fun o => { o with status := status, updated_at := now }) db.orders
    (.ok (), { db with orders := orders })

/-- `POST /api/reviews`: pydantic validates `1 ≤ rating ≤ 5` (422 otherwise,
before the handler body runs); the handler 404s when the target product does
not exist, else inserts the review with user id/name snapshots. -/
def create_review (db : DB) (current_user : User) (review : ReviewCreate)
    (newId : String) (now : ℤ) : Except Err Review × DB :=
  if ¬ review.valid then (.error .invalidInput, db)
  else
    match db.products.find? (fun p => p.id == review.product_id) with
    | none => (.error .notFound, db)
    | some _ =>
      let review_obj : Review :=
        { id := newId, product_id := review.product_id,
          user_id := current_user.id, user_name := current_user.name,
          rating := review.rating, comment := review.comment,
          created_at := now }
      (.ok review_obj, { db with reviews := db.reviews ++ [review_obj] })

/-! ## Product search

`GET /api/search/products` filters on `available: True` and passes the raw
query string `q` as a `$regex` pattern with option `i` over `name` and
`description`.  `$regex` is genuine (PCRE-style) regular-expression matching:
the model below covers the fragment exercised by this development — literal
characters and the `.` wildcard — and is faithful to MongoDB on every pattern
containing no regex metacharacter other than possibly `.`. -/

/-- One token of a regex pattern: a literal character or the `.` wildcard. -/
inductive RTok
  | lit (c : Char)
  | dot
  deriving DecidableEq, Repr, BEq

/-- Read the raw query string as a regex pattern (the modelled fragment:
`.` is the any-character wildcard, every other character is a literal). -/
def parsePattern (q : List Char) : List RTok :=
  q.map (fun c => if c = '.' then RTok.dot else RTok.lit c)

/-- Whether a pattern token matches one character, under option `i`
(case-insensitive). -/
def tokMatch : RTok → Char → Bool
  | .lit a, c => a.toLower == c.toLower
  | .dot, _ => true

/-- Whether the pattern matches a prefix of the text. -/
def matchHere : List RTok → List Char → Bool
  | [], _ => true
  | _ :: _, [] => false
  | t :: ts, c :: cs => tokMatch t c && matchHere ts cs

/-- Unanchored regex search: whether the pattern matches starting at some
position of the text (Mongo `$regex` is unanchored). -/
def regexFind (ts : List RTok) : List Char → Bool
  | [] => matchHere ts []
  | c :: cs => matchHere ts (c :: cs) || regexFind ts cs

/-- Character classes with special meaning in a PCRE pattern. -/
def isRegexMeta (c : Char) : Bool :=
  c = '.' || c = '^' || c = '$' || c = '*' || c = '+' || c = '?' ||
  c = '(' || c = ')' || c = '[' || c = ']' || c = '\x7b' || c = '\x7d' ||
  c = '|' || c = '\\'

/-- `GET /api/search/products`: available products whose name or description
matches the query, taken as a case-insensitive regex pattern. -/
def search_products (db : DB) (q : String) : List Product :=
  db.products.filter (fun p =>
    p.available &&
      (regexFind (parsePattern q.data) p.name.data ||
       regexFind (parsePattern q.data) p.description.data))

/-- Case-insensitive "is a prefix of" on character lists. -/
def isPrefixCI : List Char → List Char → Bool
  | [], _ => true
  | _ :: _, [] => false
  | a :: as, b :: bs => (a.toLower == b.toLower) && isPrefixCI as bs

/-- Case-insensitive substring containment: `containsCI q s` holds when `q`
occurs contiguously in `s`, ignoring case. -/
def containsCI (q : List Char) : List Char → Bool
  | [] => isPrefixCI q []
  | b :: bs => isPrefixCI q (b :: bs) || containsCI q bs

/-- The spec's description of product search, written from its words for
comparison with `search_products`: "returns exactly the available products
whose name or description contains q as a case-insensitive substring". -/
def search_products_spec (db : DB) (q : String) : List Product :=
  db.products.filter (fun p =>
    p.available &&
      (containsCI q.data p.name.data || containsCI q.data p.description.data))

/-- `GET /api/dashboard/stats`: admin-only; four `count_documents` calls
(available products, all orders, customer users, pending orders). -/
def get_dashboard_stats (db : DB) (current_user : User) :
    Except Err (Nat × Nat × Nat × Nat) :=
  if current_user.role ≠ UserRole.admin then .error .forbidden
  else .ok
    ((db.products.filter (fun p => p.available)).length,
     db.orders.length,
     (db.users.filter (fun u => u.role == UserRole.customer)).length,
     (db.orders.filter (fun o => o.status == OrderStatus.pending)).length)

/-! ## Helper lemmas -/

theorem updateFirst_find? {α : Type} (p : α → Bool) (g : α → α)
    (hg : ∀ a, p a = true → p (g a) = true) :
    ∀ (l : List α) (o : α), l.find? p = some o →
      (updateFirst p g l).find? p = some (g o) := by
  intro l
  induction l with
  | nil => intro o h; simp at h
  | cons x xs ih =>
    intro o h
    by_cases hx : p x = true
    · rw [List.find?_cons_of_pos _ hx] at h
      cases h
      simp [updateFirst, hx, List.find?_cons_of_pos _ (hg x hx)]
    · rw [List.find?_cons_of_neg _ hx] at h
      simp only [updateFirst, if_neg hx]
      rw [List.find?_cons_of_neg _ hx]
      exact ih o h

theorem mem_updateFirst_of_neg {α : Type} (p : α → Bool) (g : α → α)
    {x : α} : ∀ (l : List α), x ∈ l → p x = false →
      x ∈ updateFirst p g l := by
  intro l
  induction l with
  | nil => intro h; simp at h
  | cons y ys ih =>
    intro hmem hpx
    rcases List.mem_cons.mp hmem with h | h
    · subst h
      simp [updateFirst, hpx]
    · by_cases hy : p y = true
      · simp [updateFirst, hy, h]
      · simp only [updateFirst, if_neg hy]
        exact List.mem_cons_of_mem _ (ih h hpx)

theorem parsePattern_of_noMeta :
    ∀ (q : List Char), (∀ c ∈ q, isRegexMeta c = false) →
      parsePattern q = q.map RTok.lit := by
  intro q hq
  induction q with
  | nil => rfl
  | cons c cs ih =>
    have hc : isRegexMeta c = false := hq c (List.mem_cons_self c cs)
    have hdot : c ≠ '.' := by
      intro h
      rw [h] at hc
      simp [isRegexMeta] at hc
    simp only [parsePattern, List.map_cons, if_neg hdot]
    have := ih (fun d hd => hq d (List.mem_cons_of_mem c hd))
    simpa [parsePattern] using this

theorem matchHere_lit : ∀ (q s : List Char),
    matchHere (q.map RTok.lit) s = isPrefixCI q s := by
  intro q
  induction q with
  | nil => intro s; rfl
  | cons a as ih =>
    intro s
    cases s with
    | nil => rfl
    | cons b bs => simp [matchHere, isPrefixCI, tokMatch, ih]

theorem regexFind_lit (q : List Char) : ∀ s : List Char,
    regexFind (q.map RTok.lit) s = containsCI q s := by
  intro s
  induction s with
  | nil => simp [regexFind, containsCI, matchHere_lit]
  | cons b bs ih => simp [regexFind, containsCI, matchHere_lit, ih]

theorem find?_of_filter_length_pos {α : Type} (p : α → Bool) (l : List α)
    (h : 0 < (l.filter p).length) : ∃ x, l.find? p = some x := by
  rcases hf : l.find? p with _ | x
  · rw [List.find?_eq_none] at hf
    have : l.filter p = [] := List.filter_eq_nil_iff.mpr fun a ha => by
      simpa using hf a ha
    rw [this] at h
    simp at h
  · exact ⟨x, rfl⟩

/-! ## Concrete fixtures used by witnesses and counterexamples -/

/-- A catalog entry named "Croissant" (non-price fields from the seed data;
price chosen integral so that record equality is kernel-decidable). -/
def croissant : Product :=
  { id := "p-cro", name := "Croissant",
    description := "Buttery, flaky French pastry perfect for breakfast",
    price := 3, category := .pastry, image_url := "", available := true,
    ingredients := [], nutritional_info := [], created_at := 0 }

/-- A catalog entry named "Club Sandwich". -/
def clubSandwich : Product :=
  { id := "p-club", name := "Club Sandwich",
    description := "Triple-decker with turkey, bacon, lettuce, and tomato",
    price := 8, category := .sandwich, image_url := "", available := true,
    ingredients := [], nutritional_info := [], created_at := 0 }

/-- A catalog holding exactly the croissant and the club sandwich. -/
def dbCro : DB :=
  { users := [], products := [croissant, clubSandwich], orders := [],
    reviews := [] }

/-- A product whose name is "abc" and description "xyz". -/
def abcProduct : Product :=
  { id := "p-abc", name := "abc", description := "xyz", price := 1,
    category := .coffee, image_url := "", available := true,
    ingredients := [], nutritional_info := [], created_at := 0 }

/-- A database holding only `abcProduct`. -/
def dbAbc : DB :=
  { users := [], products := [abcProduct], orders := [], reviews := [] }

/-! ## The claims -/

/-- **C1.**  The claim says a successful registration stores the password
digest `hash(p)` and a subsequent login with the same credentials succeeds.
The code contradicts it: `register` assigns the digest into `user_dict`, but
`User` has no `password` field, so `User(**user_dict).dict()` silently drops
the digest and the inserted account document carries no password at all;
`login` then evaluates `user["password"]` on that document and raises
`KeyError` (HTTP 500).  Evaluated here at a concrete input: registering
`a@b.com` with password `pw` succeeds and returns a token, the single stored
user document has no password entry, and the subsequent login with the same
credentials fails with the modelled server error. -/
theorem register_stores_no_digest_and_login_fails :
    (register ⟨[], [], [], []⟩ ⟨"a@b.com", "A", "pw", none, none⟩ "id1" 0).1
      = .ok (create_token "id1" "a@b.com" UserRole.customer 0,
             ⟨"id1", "a@b.com", "A", UserRole.customer, none, none, 0⟩)
    ∧ (register ⟨[], [], [], []⟩ ⟨"a@b.com", "A", "pw", none, none⟩
        "id1" 0).2.users.map (fun u => u.password) = [none]
    ∧ login (register ⟨[], [], [], []⟩ ⟨"a@b.com", "A", "pw", none, none⟩
        "id1" 0).2 "a@b.com" "pw" 1 = .error .serverError := by
  refine ⟨by decide, by decide, by decide⟩

/-- **C2.**  Verifying a token immediately after `create_token` issues it
returns exactly the claims it was issued for (the payload's identity fields
are the issuance arguments), and verifying the same token at any time more
than 24 hours (86400 s) after issuance fails with the expired-token error. -/
theorem token_verify_roundtrip_and_expiry (user_id email : String)
    (role : UserRole) (now t : ℤ) (h : now + 86400 < t) :
    jwt_decode (create_token user_id email role now) SECRET_KEY now
      = .ok { user_id := user_id, email := email, role := role,
              exp := now + 86400 }
    ∧ jwt_decode (create_token user_id email role now) SECRET_KEY t
      = .error .expired := by
  constructor
  · have hexp : ¬ (now + 86400 ≤ now) := by omega
    simp [jwt_decode, create_token, hexp]
  · have hexp : now + 86400 ≤ t := by omega
    simp [jwt_decode, create_token, hexp]

/-- Witness for C2 at `now = 0`, `t = 90000`. -/
theorem token_verify_roundtrip_and_expiry_witness :
    (0 : ℤ) + 86400 < 90000
    ∧ (jwt_decode (create_token "u1" "a@b.com" UserRole.customer 0)
          SECRET_KEY 0
        = .ok { user_id := "u1", email := "a@b.com",
                role := UserRole.customer, exp := (0 : ℤ) + 86400 }
      ∧ jwt_decode (create_token "u1" "a@b.com" UserRole.customer 0)
          SECRET_KEY 90000 = .error .expired) :=
  ⟨by decide,
   token_verify_roundtrip_and_expiry "u1" "a@b.com" UserRole.customer 0 90000
     (by decide)⟩

/-- **C3.**  When the user store already holds exactly one account with the
requested email, registration with that email fails with the duplicate-key
error, the database is unchanged (nothing is inserted), and exactly one
account with that email exists afterward. -/
theorem register_duplicate_email_rejected (db : DB) (user : UserCreate)
    (newId : String) (now : ℤ)
    (h : (db.users.filter (fun u => u.email == user.email)).length = 1) :
    (register db user newId now).1 = .error .duplicateKey
    ∧ (register db user newId now).2 = db
    ∧ ((register db user newId now).2.users.filter
        (fun u => u.email == user.email)).length = 1 := by
  obtain ⟨x, hfind⟩ :=
    find?_of_filter_length_pos (fun u => u.email == user.email) db.users
      (by omega)
  refine ⟨by simp [register, hfind], by simp [register, hfind], ?_⟩
  simp only [register, hfind]
  exact h

/-- Witness for C3: a store holding one account with email `a@b.com`. -/
theorem register_duplicate_email_rejected_witness :
    ((DB.mk [⟨"id0", "a@b.com", "A", UserRole.customer, none, none, 0,
        some "d"⟩] [] [] []).users.filter
      (fun u => u.email == (UserCreate.mk "a@b.com" "B" "pw2" none none).email)
        ).length = 1
    ∧ (register (DB.mk [⟨"id0", "a@b.com", "A", UserRole.customer, none, none,
        0, some "d"⟩] [] [] [])
        ⟨"a@b.com", "B", "pw2", none, none⟩ "id9" 7).1
      = .error .duplicateKey :=
  ⟨by decide,
   (register_duplicate_email_rejected
     (DB.mk [⟨"id0", "a@b.com", "A", UserRole.customer, none, none, 0,
       some "d"⟩] [] [] [])
     ⟨"a@b.com", "B", "pw2", none, none⟩ "id9" 7 (by decide)).1⟩

/-- **C4.**  A customer-role account invoking any of the admin-only
operations — create product, update order status, dashboard stats — fails
with the forbidden error, and the database is returned unchanged (no document
inserted or updated). -/
theorem customer_forbidden_on_admin_ops (db : DB) (u : User)
    (pc : ProductCreate) (oid newId : String) (s : OrderStatus) (now : ℤ)
    (h : u.role = UserRole.customer) :
    create_product db u pc newId now = (.error .forbidden, db)
    ∧ update_order_status db u oid s now = (.error .forbidden, db)
    ∧ get_dashboard_stats db u = .error .forbidden := by
  refine ⟨?_, ?_, ?_⟩ <;> simp [create_product, update_order_status,
    get_dashboard_stats, h]

/-- Witness for C4 on a concrete store and customer. -/
theorem customer_forbidden_on_admin_ops_witness :
    (User.mk "u1" "a@b.com" "A" UserRole.customer none none 0).role
      = UserRole.customer
    ∧ create_product dbAbc ⟨"u1", "a@b.com", "A", UserRole.customer, none,
        none, 0⟩ ⟨"Tea", "d", 2, .tea, "", [], []⟩ "p9" 3
      = (.error .forbidden, dbAbc) :=
  ⟨rfl,
   (customer_forbidden_on_admin_ops dbAbc
     ⟨"u1", "a@b.com", "A", UserRole.customer, none, none, 0⟩
     ⟨"Tea", "d", 2, .tea, "", [], []⟩ "o5" "p9" OrderStatus.ready 3 rfl).1⟩

/-- **C5.**  For an order present in the order store, a customer-role account
that is not the owner fetching it by id fails with the forbidden error, while
the owning account fetching it by id succeeds and returns the stored record
itself. -/
theorem get_order_owner_only (db : DB) (o : Order) (viewer owner : User)
    (hfind : db.orders.find? (fun x => x.id == o.id) = some o)
    (hrole : viewer.role = UserRole.customer)
    (hne : viewer.id ≠ o.user_id)
    (hown : owner.id = o.user_id) :
    get_order db viewer o.id = .error .forbidden
    ∧ get_order db owner o.id = .ok o := by
  constructor
  · have : o.user_id ≠ viewer.id := fun hcontra => hne hcontra.symm
    simp [get_order, hfind, hrole, this]
    decide
  · simp [get_order, hfind, hown.symm]

/-- Witness for C5: one stored order owned by `u-own`, viewed by the customer
`u-other` and by its owner. -/
theorem get_order_owner_only_witness :
    ((DB.mk [] [] [Order.mk "o1" "u-own" [] 5 .pending "card" none none 0 0]
        []).orders.find? (fun x => x.id == "o1")
      = some (Order.mk "o1" "u-own" [] 5 .pending "card" none none 0 0))
    ∧ (get_order (DB.mk [] [] [Order.mk "o1" "u-own" [] 5 .pending "card"
          none none 0 0] [])
        ⟨"u2", "b@b.com", "B", UserRole.customer, none, none, 0⟩ "o1"
        = .error .forbidden
      ∧ get_order (DB.mk [] [] [Order.mk "o1" "u-own" [] 5 .pending "card"
          none none 0 0] [])
        ⟨"u-own", "a@b.com", "A", UserRole.customer, none, none, 0⟩ "o1"
        = .ok (Order.mk "o1" "u-own" [] 5 .pending "card" none none 0 0)) :=
  ⟨by decide,
   get_order_owner_only
     (DB.mk [] [] [Order.mk "o1" "u-own" [] 5 .pending "card" none none 0 0]
       [])
     (Order.mk "o1" "u-own" [] 5 .pending "card" none none 0 0)
     ⟨"u2", "b@b.com", "B", UserRole.customer, none, none, 0⟩
     ⟨"u-own", "a@b.com", "A", UserRole.customer, none, none, 0⟩
     (by decide) rfl (by decide) rfl⟩

/-- **C6.**  The stored total of a created order is the sum over its line
items of price times quantity, computed server-side (the request model
`OrderCreate` has no total field for a client to supply); the concrete order
with items `[(price 2.50, qty 2), (price 4.25, qty 1)]` has total `9.25`; and
the created order — its total in particular — does not depend on the database
(so on the catalog's product prices) at all: creating the same order against
any two database states yields the same record. -/
theorem order_total_is_server_side_sum (db db2 : DB) (u : User)
    (oc : OrderCreate) (newId : String) (now : ℤ) :
    ((create_order db u oc newId now).1).total_amount
      = (oc.items.map (fun i => i.price * (i.quantity : ℚ))).sum
    ∧ ((create_order db u
        ⟨[⟨"p1", 2, 2.5, "Espresso"⟩, ⟨"p2", 1, 4.25, "Cappuccino"⟩],
          none, none⟩ newId now).1).total_amount = 9.25
    ∧ (create_order db u oc newId now).1 = (create_order db2 u oc newId now).1
    := by
  refine ⟨rfl, ?_, rfl⟩
  norm_num [create_order]

/-- **C7.**  Review creation rejects ratings 0 and 6 with the invalid-input
error (pydantic's `ge=1, le=5` bound) without touching the store, accepts
ratings 1 and 5 (inserting the review) when the target product exists, and
when the target product id does not exist fails with a not-found error and
inserts nothing. -/
theorem review_rating_bounds_and_product_check (db dbNo : DB) (u : User)
    (pid pidNo comment newId : String) (now : ℤ)
    (hex : ∃ p ∈ db.products, p.id = pid)
    (hnex : ∀ p ∈ dbNo.products, p.id ≠ pidNo) :
    create_review db u ⟨pid, 0, comment⟩ newId now
      = (.error .invalidInput, db)
    ∧ create_review db u ⟨pid, 6, comment⟩ newId now
      = (.error .invalidInput, db)
    ∧ create_review db u ⟨pid, 1, comment⟩ newId now
      = (.ok ⟨newId, pid, u.id, u.name, 1, comment, now⟩,
         { db with reviews :=
             db.reviews ++ [⟨newId, pid, u.id, u.name, 1, comment, now⟩] })
    ∧ create_review db u ⟨pid, 5, comment⟩ newId now
      = (.ok ⟨newId, pid, u.id, u.name, 5, comment, now⟩,
         { db with reviews :=
             db.reviews ++ [⟨newId, pid, u.id, u.name, 5, comment, now⟩] })
    ∧ create_review dbNo u ⟨pidNo, 1, comment⟩ newId now
      = (.error .notFound, dbNo) := by
  obtain ⟨p, hp, hpid⟩ := hex
  have hfind : ∃ x, db.products.find? (fun x => x.id == pid) = some x := by
    rcases hf : db.products.find? (fun x => x.id == pid) with _ | x
    · rw [List.find?_eq_none] at hf
      exact absurd (by simpa using hpid) (by simpa using hf p hp)
    · exact ⟨x, hf⟩
  obtain ⟨x, hfind⟩ := hfind
  have hnone : dbNo.products.find? (fun x => x.id == pidNo) = none := by
    rw [List.find?_eq_none]
    intro a ha
    simpa using hnex a ha
  refine ⟨by simp [create_review, ReviewCreate.valid],
          by simp [create_review, ReviewCreate.valid],
          by simp [create_review, ReviewCreate.valid, hfind],
          by simp [create_review, ReviewCreate.valid, hfind],
          by simp [create_review, ReviewCreate.valid, hnone]⟩

/-- Witness for C7: a store holding product `p-abc`, an empty store, and a
missing product id. -/
theorem review_rating_bounds_and_product_check_witness :
    (∃ p ∈ dbAbc.products, p.id = "p-abc")
    ∧ (∀ p ∈ (DB.mk [] [] [] []).products, p.id ≠ "nope")
    ∧ create_review dbAbc
        ⟨"u1", "a@b.com", "A", UserRole.customer, none, none, 0⟩
        ⟨"p-abc", 1, "good"⟩ "r1" 2
      = (.ok ⟨"r1", "p-abc", "u1", "A", 1, "good", 2⟩,
         { dbAbc with reviews := dbAbc.reviews
             ++ [⟨"r1", "p-abc", "u1", "A", 1, "good", 2⟩] })
    ∧ create_review (DB.mk [] [] [] [])
        ⟨"u1", "a@b.com", "A", UserRole.customer, none, none, 0⟩
        ⟨"nope", 1, "good"⟩ "r1" 2
      = (.error .notFound, DB.mk [] [] [] []) :=
  ⟨by decide, by simp,
   (review_rating_bounds_and_product_check dbAbc (DB.mk [] [] [] [])
     ⟨"u1", "a@b.com", "A", UserRole.customer, none, none, 0⟩
     "p-abc" "nope" "good" "r1" 2 (by decide) (by simp)).2.2.1,
   (review_rating_bounds_and_product_check dbAbc (DB.mk [] [] [] [])
     ⟨"u1", "a@b.com", "A", UserRole.customer, none, none, 0⟩
     "p-abc" "nope" "good" "r1" 2 (by decide) (by simp)).2.2.2.2⟩

/-- **C8, counterexample.**  The claim quantifies over every query string,
but `search_products` hands the raw query to `$regex`, so a query containing
a regex metacharacter is not matched as a literal substring: against a
catalog holding one available product named "abc", the query "a.c" (whose
`.` matches any character) returns that product, while the set of products
whose name or description contains "a.c" as a case-insensitive substring is
empty. -/
theorem search_products_not_substring_for_meta_query :
    search_products dbAbc "a.c" ≠ search_products_spec dbAbc "a.c" := by
  decide

/-- **C8, amended.**  For every query string containing no regex
metacharacter, product search returns exactly the available products whose
name or description contains the query as a case-insensitive substring. -/
theorem search_products_substring_of_noMeta (db : DB) (q : String)
    (h : q.data.all (fun c => !(isRegexMeta c)) = true) :
    search_products db q = search_products_spec db q := by
  have hq : ∀ c ∈ q.data, isRegexMeta c = false := by
    intro c hc
    simpa using List.all_eq_true.mp h c hc
  have hparse : parsePattern q.data = q.data.map RTok.lit :=
    parsePattern_of_noMeta q.data hq
  unfold search_products search_products_spec
  apply List.filter_congr
  intro p _
  rw [hparse, regexFind_lit, regexFind_lit]

/-- Witness for C8 (amended): the spec's own instance — query "cro" against a
catalog holding "Croissant" and "Club Sandwich" returns only the croissant,
and "cro" contains no metacharacter. -/
theorem search_products_substring_of_noMeta_witness :
    "cro".data.all (fun c => !(isRegexMeta c)) = true
    ∧ search_products dbCro "cro" = [croissant] :=
  ⟨by decide,
   (search_products_substring_of_noMeta dbCro "cro" (by decide)).trans
     (by decide)⟩

/-- **C9.**  A newly created order has status pending.  For an order present
in the store (of any current status, since `o` is arbitrary) and any target
status, an admin-issued status update succeeds — no transition is rejected —
and it changes only that order's `status` and `updated_at` fields: the
updated document is `o` with exactly those two fields replaced, every other
order document with a different id survives unchanged, and the other three
collections are untouched. -/
theorem order_status_pending_and_free_transitions (db : DB) (a u : User)
    (oc : OrderCreate) (o : Order) (oid newId : String) (s : OrderStatus)
    (now : ℤ)
    (hadm : a.role = UserRole.admin)
    (hfind : db.orders.find? (fun x => x.id == oid) = some o) :
    (create_order db u oc newId now).1.status = OrderStatus.pending
    ∧ (update_order_status db a oid s now).1 = .ok ()
    ∧ (update_order_status db a oid s now).2.users = db.users
    ∧ (update_order_status db a oid s now).2.products = db.products
    ∧ (update_order_status db a oid s now).2.reviews = db.reviews
    ∧ (update_order_status db a oid s now).2.orders.find?
        (fun x => x.id == oid)
      = some { o with status := s, updated_at := now }
    ∧ ∀ o2 ∈ db.orders, o2.id ≠ oid →
        o2 ∈ (update_order_status db a oid s now).2.orders := by
  have hmem : o ∈ db.orders := List.mem_of_find?_eq_some hfind
  have hid := List.find?_some hfind
  have hideq : o.id = oid := by simpa using hid
  have hnotall : db.orders.all (fun x => x.id != oid) = false := by
    cases hall : db.orders.all (fun x => x.id != oid) with
    | false => rfl
    | true =>
      exact absurd hideq (by simpa using List.all_eq_true.mp hall o hmem)
  have hpres : ∀ x : Order, (x.id == oid) = true →
      (({ x with status := s, updated_at := now } : Order).id == oid)
        = true := by
    intro x hx
    simpa using hx
  refine ⟨rfl, ?_, ?_, ?_, ?_, ?_, ?_⟩
  · simp [update_order_status, hadm, hnotall]
  · simp [update_order_status, hadm, hnotall]
  · simp [update_order_status, hadm, hnotall]
  · simp [update_order_status, hadm, hnotall]
  · simp only [update_order_status, hadm, hnotall]
    simp only [ne_eq, not_true_eq_false, if_false, Bool.false_eq_true,
      if_false]
    exact updateFirst_find? _ _ hpres db.orders o hfind
  · intro o2 hmem2 hne2
    simp only [update_order_status, hadm, hnotall]
    simp only [ne_eq, not_true_eq_false, if_false, Bool.false_eq_true,
      if_false]
    exact mem_updateFirst_of_neg _ _ db.orders hmem2 (by simpa using hne2)

/-- Witness for C9: one stored pending order, updated to cancelled by an
admin. -/
theorem order_status_pending_and_free_transitions_witness :
    (User.mk "adm" "admin@cafe.com" "Admin" UserRole.admin none none 0).role
      = UserRole.admin
    ∧ ((DB.mk [] [] [Order.mk "o1" "u1" [] 5 .pending "card" none none 0 0]
        []).orders.find? (fun x => x.id == "o1")
      = some (Order.mk "o1" "u1" [] 5 .pending "card" none none 0 0))
    ∧ (update_order_status
        (DB.mk [] [] [Order.mk "o1" "u1" [] 5 .pending "card" none none 0 0]
          [])
        ⟨"adm", "admin@cafe.com", "Admin", UserRole.admin, none, none, 0⟩
        "o1" OrderStatus.cancelled 9).1 = .ok ()
    ∧ (update_order_status
        (DB.mk [] [] [Order.mk "o1" "u1" [] 5 .pending "card" none none 0 0]
          [])
        ⟨"adm", "admin@cafe.com", "Admin", UserRole.admin, none, none, 0⟩
        "o1" OrderStatus.cancelled 9).2.orders.find?
          (fun x => x.id == "o1")
      = some (Order.mk "o1" "u1" [] 5 .cancelled "card" none none 0 9) :=
  ⟨rfl, by decide,
   (order_status_pending_and_free_transitions
     (DB.mk [] [] [Order.mk "o1" "u1" [] 5 .pending "card" none none 0 0] [])
     ⟨"adm", "admin@cafe.com", "Admin", UserRole.admin, none, none, 0⟩
     ⟨"u1", "a@b.com", "A", UserRole.customer, none, none, 0⟩
     ⟨[], none, none⟩
     (Order.mk "o1" "u1" [] 5 .pending "card" none none 0 0)
     "o1" "n1" OrderStatus.cancelled 9 rfl (by decide)).2.1,
   (order_status_pending_and_free_transitions
     (DB.mk [] [] [Order.mk "o1" "u1" [] 5 .pending "card" none none 0 0] [])
     ⟨"adm", "admin@cafe.com", "Admin", UserRole.admin, none, none, 0⟩
     ⟨"u1", "a@b.com", "A", UserRole.customer, none, none, 0⟩
     ⟨[], none, none⟩
     (Order.mk "o1" "u1" [] 5 .pending "card" none none 0 0)
     "o1" "n1" OrderStatus.cancelled 9 rfl (by decide)).2.2.2.2.2.1⟩

/-- **C10.**  A product whose availability flag is false is still returned in
full by a fetch by id (`find_one` does not filter on availability), but never
appears in the product listing or in product search, and every product those
two return has availability true. -/
theorem unavailable_product_fetchable_but_unlisted (db : DB) (p : Product)
    (pid q : String) (cat : Option ProductCategory)
    (hfind : db.products.find? (fun x => x.id == pid) = some p)
    (hav : p.available = false) :
    get_product db pid = .ok p
    ∧ p ∉ get_products db cat
    ∧ p ∉ search_products db q
    ∧ (∀ x ∈ get_products db cat, x.available = true)
    ∧ (∀ x ∈ search_products db q, x.available = true) := by
  refine ⟨by simp [get_product, hfind], ?_, ?_, ?_, ?_⟩
  · intro hmem
    have := (List.mem_filter.mp hmem).2
    rw [Bool.and_eq_true] at this
    rw [hav] at this
    simp at this
  · intro hmem
    have := (List.mem_filter.mp hmem).2
    rw [Bool.and_eq_true] at this
    rw [hav] at this
    simp at this
  · intro x hmem
    have hx := (List.mem_filter.mp hmem).2
    simp only [Bool.and_eq_true] at hx
    exact hx.1
  · intro x hmem
    have hx := (List.mem_filter.mp hmem).2
    simp only [Bool.and_eq_true] at hx
    exact hx.1

/-- Witness for C10: a catalog holding one unavailable product. -/
theorem unavailable_product_fetchable_but_unlisted_witness :
    ((DB.mk [] [{ abcProduct with available := false }] [] []).products.find?
        (fun x => x.id == "p-abc")
      = some { abcProduct with available := false })
    ∧ ({ abcProduct with available := false } : Product).available = false
    ∧ get_product (DB.mk [] [{ abcProduct with available := false }] [] [])
        "p-abc" = .ok { abcProduct with available := false }
    ∧ ({ abcProduct with available := false } : Product)
        ∉ get_products (DB.mk [] [{ abcProduct with available := false }] []
          []) none
    ∧ ({ abcProduct with available := false } : Product)
        ∉ search_products (DB.mk [] [{ abcProduct with available := false }]
          [] []) "abc" :=
  ⟨by decide, rfl,
   (unavailable_product_fetchable_but_unlisted
     (DB.mk [] [{ abcProduct with available := false }] [] [])
     { abcProduct with available := false } "p-abc" "abc" none
     (by decide) rfl).1,
   (unavailable_product_fetchable_but_unlisted
     (DB.mk [] [{ abcProduct with available := false }] [] [])
     { abcProduct with available := false } "p-abc" "abc" none
     (by decide) rfl).2.1,
   (unavailable_product_fetchable_but_unlisted
     (DB.mk [] [{ abcProduct with available := false }] [] [])
     { abcProduct with available := false } "p-abc" "abc" none
     (by decide) rfl).2.2.1⟩

end CafeDelights
